import Mathlib

/-!
Shallow embedding of `src/folder_monitor.py` (class `FolderMonitor`).

The file system is modelled as an association list from path strings to
file-tree nodes; a regular file carries a byte size together with an access
status describing what happens when the walk reaches it (readable, vanished
between listing and `getsize`, or raising on `getsize`).  Python `int` is
modelled by `ℤ` (byte counts, which are non-negative, by `ℕ`), Python `float`
arithmetic inside `format_size` by `ℚ` — every value arising there is
`b / 1024^k`, a dyadic rational that binary64 represents exactly for
`b < 2^53`, and division by `1024.0` is exact in binary64 — and the
`f"{x:.2f}"` rendering by round-half-to-even at two decimal places, which is
what CPython performs on those exactly-represented values.
-/

namespace FolderMon

/-- Access status of a regular file at walk time: `readable` means
`os.path.exists` is true and `os.path.getsize` succeeds; `vanished` means
`os.path.exists` is already false (the file disappeared after listing);
`unreadable` means `os.path.getsize` raises `OSError`. -/
inductive FileStatus where
  | readable
  | vanished
  | unreadable
deriving DecidableEq, Repr

/-- A node of the file tree: a regular file with its size and access status,
or a directory with named children. -/
inductive FSNode where
  | file (size : Nat) (status : FileStatus)
  | dir (children : List (String × FSNode))

/-- The file system: association list from path string to the node found
there (`os.path.exists p` is lookup success, `os.path.isdir p` asks whether
the node is a directory). -/
abbrev FS := List (String × FSNode)

/-- Path lookup in the modelled file system. -/
def lookupFS : FS → String → Option FSNode
  | [], _ => none
  | (k, n) :: rest, p => if k = p then some n else lookupFS rest p
termination_by structural fs _ => fs

/-- Embedding of `os.path.isdir` on the result of a lookup. -/
def isDirNode : Option FSNode → Bool
  | some (FSNode.dir _) => true
  | _ => false

/-- Contribution of one regular file to the walk total, embedding the body of
the inner loop of `get_folder_size`: a readable file adds its size; a file
whose `os.path.exists` check fails is skipped; a file whose `getsize` raises
is caught by the `except` clause and skipped. -/
def fileContribution (sz : Nat) : FileStatus → Nat
  | FileStatus.readable => sz
  | FileStatus.vanished => 0
  | FileStatus.unreadable => 0

/-- The `os.walk` summation of `get_folder_size`: every regular file anywhere
under the listing contributes `fileContribution`, directories are entered
recursively. -/
def walkChildren : List (String × FSNode) → Nat
  | [] => 0
  | (_, FSNode.file sz st) :: rest => fileContribution sz st + walkChildren rest
  | (_, FSNode.dir cs) :: rest => walkChildren cs + walkChildren rest

/-- The two failure modes of `get_folder_size` (both raised as `OSError` in
the code, distinguished by their message): the path does not exist, or it
exists but is not a directory.  The carried string is the exception
message. -/
inductive OSErr where
  | notFound (msg : String)
  | notADirectory (msg : String)
deriving DecidableEq, Repr

/-- Embedding of `str(e)` for a modelled `OSError`. -/
def errMessage : OSErr → String
  | OSErr.notFound msg => msg
  | OSErr.notADirectory msg => msg

/-- Embedding of `FolderMonitor.get_folder_size`: raises when the path is missing or not a
directory, otherwise walks the tree summing accessible file sizes. -/
def get_folder_size (fs : FS) (folder_path : String) : Except OSErr Nat :=
  match lookupFS fs folder_path with
  | none => Except.error (OSErr.notFound ("Folder \x27" ++ folder_path ++ "\x27 does not exist."))
  | some (FSNode.file _ _) =>
      Except.error (OSErr.notADirectory ("\x27" ++ folder_path ++ "\x27 is not a directory."))
  | some (FSNode.dir cs) => Except.ok (walkChildren cs)

/-- All regular files (size and status) anywhere in the subtree of a listing, used
on the specification side to state what the walk sums. -/
def filesIn : List (String × FSNode) → List (Nat × FileStatus)
  | [] => []
  | (_, FSNode.file sz st) :: rest => (sz, st) :: filesIn rest
  | (_, FSNode.dir cs) :: rest => filesIn cs ++ filesIn rest

/-! ### Python dict, modelled as an insertion-ordered association list

Overwriting an existing key keeps its position; a new key is appended at the
end — exactly the CPython dict iteration-order contract, which
`check_folder_limits` and `get_monitoring_status` rely on. -/

/-- Embedding of `d[k] = v` on a Python dict. -/
def dictInsert (k : String) (v : Int) : List (String × Int) → List (String × Int)
  | [] => [(k, v)]
  | (k0, v0) :: rest => if k0 = k then (k, v) :: rest else (k0, v0) :: dictInsert k v rest

/-- Embedding of `del d[k]` on a Python dict (the caller has checked membership). -/
def dictRemove (k : String) : List (String × Int) → List (String × Int)
  | [] => []
  | (k0, v0) :: rest => if k0 = k then rest else (k0, v0) :: dictRemove k rest

/-- Embedding of `k in d` on a Python dict. -/
def dictContains (k : String) : List (String × Int) → Bool
  | [] => false
  | (k0, _) :: rest => if k0 = k then true else dictContains k rest

/-- Embedding of `d[k]` as an option. -/
def dictLookup (k : String) : List (String × Int) → Option Int
  | [] => none
  | (k0, v0) :: rest => if k0 = k then some v0 else dictLookup k rest

/-! ### `format_size` and the model of `f"{x:.2f}"` -/

/-- Round-half-to-even to the nearest integer, which is what binary64
formatting performs on an exactly-represented value. -/
def roundHalfEven (q : ℚ) : ℤ :=
  if q - ⌊q⌋ < 1 / 2 then ⌊q⌋
  else if 1 / 2 < q - ⌊q⌋ then ⌊q⌋ + 1
  else if ⌊q⌋ % 2 = 0 then ⌊q⌋ else ⌊q⌋ + 1

/-- Two-digit rendering of a hundredths remainder. -/
def pad2 (n : Nat) : String := if n < 10 then "0" ++ toString n else toString n

/-- Render a non-negative number of hundredths as a decimal with exactly two
fractional digits (`102400 ↦ "1024.00"`). -/
def renderCents (n : Nat) : String := toString (n / 100) ++ "." ++ pad2 (n % 100)

/-- Model of `f"{x:.2f}"` on the dyadic rationals produced by `format_size`:
round the value to the nearest hundredth (ties to even) and print two
fractional digits. -/
def fmt2 (q : ℚ) : String :=
  if q < 0 then "-" ++ renderCents (roundHalfEven (-(q * 100))).toNat
  else renderCents (roundHalfEven (q * 100)).toNat

/-- The non-terminal unit symbols iterated by `format_size`. -/
def sizeUnits : List String := ["B", "KB", "MB", "GB", "TB"]

/-- The `for unit in [...]` loop of `format_size`: return at the first unit
where the running value is below 1024, else divide by `1024.0` and continue;
when the list is exhausted fall through to `"PB"`. -/
def formatLoop : ℚ → List String → String
  | size_bytes, [] => fmt2 size_bytes ++ " PB"
  | size_bytes, unit :: rest =>
      if size_bytes < 1024 then fmt2 size_bytes ++ " " ++ unit
      else formatLoop (size_bytes / 1024) rest
termination_by structural _ us => us

/-- Embedding of `FolderMonitor.format_size`. -/
def format_size (size_bytes : ℚ) : String := formatLoop size_bytes sizeUnits

/-- Companion of `formatLoop` returning the final magnitude (before the
two-decimal rounding) and the chosen unit symbol. -/
def formatParts : ℚ → List String → ℚ × String
  | q, [] => (q, "PB")
  | q, unit :: rest => if q < 1024 then (q, unit) else formatParts (q / 1024) rest
termination_by structural _ us => us

/-- The unit symbol `format_size` prints for a byte count. -/
def displayedUnit (b : Nat) : String := (formatParts (b : ℚ) sizeUnits).2

/-- The numeric magnitude `format_size` prints for a byte count: the final
loop value rounded to hundredths. -/
def displayedValue (b : Nat) : ℚ :=
  ((roundHalfEven ((formatParts (b : ℚ) sizeUnits).1 * 100) : ℤ) : ℚ) / 100

/-- All unit symbols that can appear in `format_size` output. -/
def allUnits : List String := ["B", "KB", "MB", "GB", "TB", "PB"]

/-! ### Monitor state and operations -/

/-- A violation record, one per over-limit folder per check
(the dict literal built in `check_folder_limits`). -/
structure Violation where
  folder_path : String
  current_size : Nat
  size_limit : Int
  current_size_formatted : String
  size_limit_formatted : String
  excess_size : Int
  excess_size_formatted : String
deriving DecidableEq, Repr

/-- A triggered alert record (the dict literal built in `trigger_alert`). The timestamp
is `time.time()` at trigger time, supplied as a parameter of the model. -/
structure Alert where
  timestamp : ℚ
  violation : Violation
  message : String
deriving DecidableEq, Repr

/-- The mutable state of a `FolderMonitor` instance. -/
structure FolderMonitor where
  monitoring_config : List (String × Int)
  alerts_triggered : List Alert
deriving DecidableEq, Repr

/-- Embedding of `FolderMonitor.add_folder_to_monitor`: reject a missing path, reject a
non-directory, otherwise convert MB to bytes and insert/overwrite the
entry. -/
def add_folder_to_monitor (fs : FS) (folder_path : String) (size_limit_mb : Int)
    (m : FolderMonitor) : Bool × FolderMonitor :=
  if !(lookupFS fs folder_path).isSome then (false, m)
  else if !isDirNode (lookupFS fs folder_path) then (false, m)
  else
    let size_limit_bytes := size_limit_mb * 1024 * 1024
    (true, { m with monitoring_config := dictInsert folder_path size_limit_bytes m.monitoring_config })

/-- Embedding of `FolderMonitor.remove_folder_from_monitor`. -/
def remove_folder_from_monitor (folder_path : String) (m : FolderMonitor) :
    Bool × FolderMonitor :=
  if dictContains folder_path m.monitoring_config then
    (true, { m with monitoring_config := dictRemove folder_path m.monitoring_config })
  else (false, m)

/-- The violation dict built by `check_folder_limits` for an over-limit
folder. -/
def mkViolation (folder_path : String) (current_size : Nat) (size_limit : Int) :
    Violation :=
  { folder_path := folder_path
    current_size := current_size
    size_limit := size_limit
    current_size_formatted := format_size (current_size : ℚ)
    size_limit_formatted := format_size (size_limit : ℚ)
    excess_size := (current_size : Int) - size_limit
    excess_size_formatted := format_size (((current_size : Int) - size_limit : Int) : ℚ) }

/-- The `for folder_path, size_limit in self.monitoring_config.items()` loop
of `check_folder_limits`: measurement failure (`OSError`) skips the entry,
strict excess appends a violation. -/
def checkLoop (fs : FS) : List (String × Int) → List Violation
  | [] => []
  | (folder_path, size_limit) :: rest =>
      match get_folder_size fs folder_path with
      | Except.error _ => checkLoop fs rest
      | Except.ok current_size =>
          if size_limit < (current_size : Int) then
            mkViolation folder_path current_size size_limit :: checkLoop fs rest
          else checkLoop fs rest

/-- Embedding of `FolderMonitor.check_folder_limits`. -/
def check_folder_limits (fs : FS) (m : FolderMonitor) : List Violation :=
  checkLoop fs m.monitoring_config

/-- The alert message built by `trigger_alert`; `timeStr` models
`time.strftime("%Y-%m-%d %H:%M:%S")` at trigger time. -/
def alertMessage (v : Violation) (timeStr : String) : String :=
  "🚨 FOLDER SIZE ALERT 🚨\n" ++
  "Folder: " ++ v.folder_path ++ "\n" ++
  "Current Size: " ++ v.current_size_formatted ++ "\n" ++
  "Size Limit: " ++ v.size_limit_formatted ++ "\n" ++
  "Excess: " ++ v.excess_size_formatted ++ "\n" ++
  "Time: " ++ timeStr ++ "\n" ++
  "--------------------------------------------------"

/-- The alert record appended by `trigger_alert`. -/
def mkAlert (now : ℚ) (timeStr : String) (v : Violation) : Alert :=
  { timestamp := now, violation := v, message := alertMessage v timeStr }

/-- Embedding of `FolderMonitor.trigger_alert`: print the message and append the alert
record to `alerts_triggered`. -/
def trigger_alert (now : ℚ) (timeStr : String) (v : Violation) (m : FolderMonitor) :
    FolderMonitor :=
  { m with alerts_triggered := m.alerts_triggered ++ [mkAlert now timeStr v] }

/-- Embedding of `FolderMonitor.monitor_once`: empty watch-list short-circuits to `false`;
otherwise evaluate, trigger one alert per violation in order, and report
whether any violation was found. -/
def monitor_once (fs : FS) (now : ℚ) (timeStr : String) (m : FolderMonitor) :
    Bool × FolderMonitor :=
  if m.monitoring_config.isEmpty then (false, m)
  else
    let violations := check_folder_limits fs m
    if violations.isEmpty then (false, m)
    else (true, violations.foldl (fun st v => trigger_alert now timeStr v st) m)

/-- One entry of the `folders` list of `get_monitoring_status`: full size
data on success, an error descriptor on measurement failure. -/
inductive FolderInfo where
  | ok (path : String) (current_size : Nat) (current_size_formatted : String)
      (size_limit : Int) (size_limit_formatted : String)
      (usage_percentage : ℚ) (is_over_limit : Bool)
  | err (path : String) (error : String)
deriving DecidableEq, Repr

/-- The status dict returned by `get_monitoring_status`. -/
structure MonitoringStatus where
  total_folders_monitored : Nat
  folders : List FolderInfo
  total_alerts_triggered : Nat
deriving DecidableEq, Repr

/-- The per-folder loop of `get_monitoring_status`: measure, and on success
compute the guarded usage percentage and over-limit flag; on `OSError`
record `str(e)` instead. -/
def statusLoop (fs : FS) : List (String × Int) → List FolderInfo
  | [] => []
  | (folder_path, size_limit) :: rest =>
      match get_folder_size fs folder_path with
      | Except.ok current_size =>
          FolderInfo.ok folder_path current_size (format_size (current_size : ℚ))
            size_limit (format_size (size_limit : ℚ))
            (if 0 < size_limit then ((current_size : ℚ) / (size_limit : ℚ)) * 100 else 0)
            (decide (size_limit < (current_size : Int)))
            :: statusLoop fs rest
      | Except.error e =>
          FolderInfo.err folder_path (errMessage e) :: statusLoop fs rest

/-- Embedding of `FolderMonitor.get_monitoring_status`. -/
def get_monitoring_status (fs : FS) (m : FolderMonitor) : MonitoringStatus :=
  { total_folders_monitored := m.monitoring_config.length
    folders := statusLoop fs m.monitoring_config
    total_alerts_triggered := m.alerts_triggered.length }

/-! ### Specification-side definitions

These restate, in the words of the specification and of the claims under
examination, what the operations above are supposed to compute; the theorems
below compare them with the source-side definitions. -/

/-- Spec side: the `folders` entry the code produces for one watch-list
entry, with the division guard written as the code has it
(`if size_limit > 0`). -/
def statusInfo (fs : FS) (p : String) (lim : Int) : FolderInfo :=
  match get_folder_size fs p with
  | Except.ok current_size =>
      FolderInfo.ok p current_size (format_size (current_size : ℚ))
        lim (format_size (lim : ℚ))
        (if 0 < lim then ((current_size : ℚ) / (lim : ℚ)) * 100 else 0)
        (decide (lim < (current_size : Int)))
  | Except.error e => FolderInfo.err p (errMessage e)

/-- Claim side (C8): usage percentage as the claim words it — divide unless
the stored limit is exactly zero. -/
def claimUsage (current_size : Nat) (size_limit : Int) : ℚ :=
  if size_limit = 0 then 0 else ((current_size : ℚ) / (size_limit : ℚ)) * 100

/-- Claim side (C8): the `folders` entry the claim describes, guarding the
division only at `size_limit = 0`. -/
def statusInfoClaimed (fs : FS) (p : String) (lim : Int) : FolderInfo :=
  match get_folder_size fs p with
  | Except.ok current_size =>
      FolderInfo.ok p current_size (format_size (current_size : ℚ))
        lim (format_size (lim : ℚ))
        (claimUsage current_size lim)
        (decide (lim < (current_size : Int)))
  | Except.error e => FolderInfo.err p (errMessage e)

/-- Claim C8 as stated: every status entry carries `claimUsage`, i.e. the
division is performed whenever the stored limit is nonzero. -/
def statusUsageGuardClaim : Prop :=
  ∀ (fs : FS) (m : FolderMonitor),
    (get_monitoring_status fs m).folders =
      m.monitoring_config.map (fun e => statusInfoClaimed fs e.1 e.2)

/-- Claim C1 as stated: a non-positive limit makes `add_folder_to_monitor`
return failure and leave the watch-list unchanged. -/
def registerRejectsNonpositiveClaim : Prop :=
  ∀ (fs : FS) (p : String) (lim : Int) (m : FolderMonitor), lim ≤ 0 →
    (add_folder_to_monitor fs p lim m).1 = false ∧
    (add_folder_to_monitor fs p lim m).2.monitoring_config = m.monitoring_config

/-- Claim C2 as stated: `format_size` output is a two-decimal number, a
space and a unit from `allUnits`, and the printed (post-rounding) magnitude
is strictly below 1024 whenever the unit is not `"PB"`. -/
def formatMagnitudeClaim : Prop :=
  ∀ b : Nat,
    format_size (b : ℚ) =
      renderCents (roundHalfEven ((formatParts (b : ℚ) sizeUnits).1 * 100)).toNat
        ++ " " ++ displayedUnit b
    ∧ displayedUnit b ∈ allUnits
    ∧ (displayedUnit b ≠ "PB" → displayedValue b < 1024)

/-! ### Helper lemmas -/

lemma walkChildren_eq : ∀ cs : List (String × FSNode),
    walkChildren cs =
      (((filesIn cs).filter (fun f => f.2 == FileStatus.readable)).map (fun f => f.1)).sum
  | [] => by simp [walkChildren, filesIn]
  | (nm, FSNode.file sz st) :: rest => by
      have ih := walkChildren_eq rest
      cases st <;>
        simp [walkChildren, filesIn, fileContribution, ih, List.filter_cons,
          show (FileStatus.readable == FileStatus.readable) = true from rfl,
          show (FileStatus.vanished == FileStatus.readable) = false from rfl,
          show (FileStatus.unreadable == FileStatus.readable) = false from rfl]
  | (nm, FSNode.dir cs0) :: rest => by
      have ih1 := walkChildren_eq cs0
      have ih2 := walkChildren_eq rest
      simp [walkChildren, filesIn, ih1, ih2, List.filter_append]

lemma formatLoop_eq_parts (us : List String) (q : ℚ) :
    formatLoop q us = fmt2 (formatParts q us).1 ++ " " ++ (formatParts q us).2 := by
  induction us generalizing q with
  | nil =>
      show fmt2 q ++ " PB" = fmt2 q ++ " " ++ "PB"
      rw [String.append_assoc]
      rfl
  | cons u rest ih =>
      by_cases h : q < 1024
      · simp [formatLoop, formatParts, h]
      · simp only [formatLoop, formatParts, if_neg h]
        exact ih (q / 1024)

lemma formatParts_nonneg (us : List String) (q : ℚ) (hq : 0 ≤ q) :
    0 ≤ (formatParts q us).1 := by
  induction us generalizing q with
  | nil => simpa [formatParts] using hq
  | cons u rest ih =>
      by_cases h : q < 1024
      · simpa [formatParts, h] using hq
      · simp only [formatParts, if_neg h]
        exact ih (q / 1024) (by positivity)

lemma formatParts_unit_mem (us : List String) (q : ℚ) :
    (formatParts q us).2 ∈ us ++ ["PB"] := by
  induction us generalizing q with
  | nil => simp [formatParts]
  | cons u rest ih =>
      by_cases h : q < 1024
      · simp [formatParts, h]
      · simp only [formatParts, if_neg h, List.cons_append, List.mem_cons]
        exact Or.inr (ih (q / 1024))

lemma formatParts_lt_of_ne (us : List String) (q : ℚ)
    (h : (formatParts q us).2 ≠ "PB") : (formatParts q us).1 < 1024 := by
  induction us generalizing q with
  | nil => simp [formatParts] at h
  | cons u rest ih =>
      by_cases hlt : q < 1024
      · simp only [formatParts, if_pos hlt]
        exact hlt
      · simp only [formatParts, if_neg hlt] at h ⊢
        exact ih (q / 1024) h

lemma roundHalfEven_le (q : ℚ) : roundHalfEven q ≤ ⌊q⌋ + 1 := by
  unfold roundHalfEven
  split
  · omega
  · split
    · omega
    · split <;> omega

lemma roundHalfEven_low (q : ℚ) (n : ℤ) (h1 : (n : ℚ) ≤ q) (h2 : q - n < 1 / 2) :
    roundHalfEven q = n := by
  have hfl : ⌊q⌋ = n := Int.floor_eq_iff.mpr ⟨h1, by linarith⟩
  unfold roundHalfEven
  rw [hfl, if_pos h2]

lemma roundHalfEven_up (q : ℚ) (n : ℤ) (h1 : 1 / 2 < q - n) (h2 : q < n + 1) :
    roundHalfEven q = n + 1 := by
  have hfl : ⌊q⌋ = n := Int.floor_eq_iff.mpr ⟨by linarith, by linarith⟩
  unfold roundHalfEven
  rw [hfl, if_neg (by linarith), if_pos h1]

lemma fmt2_nonneg (q : ℚ) (hq : 0 ≤ q) :
    fmt2 q = renderCents (roundHalfEven (q * 100)).toNat := by
  rw [fmt2, if_neg (not_lt.mpr hq)]

lemma dictLookup_insert_self (k : String) (v : Int) :
    ∀ d : List (String × Int), dictLookup k (dictInsert k v d) = some v
  | [] => by simp [dictInsert, dictLookup]
  | (k0, v0) :: rest => by
      by_cases h : k0 = k
      · simp [dictInsert, dictLookup, h]
      · simp [dictInsert, dictLookup, h, dictLookup_insert_self k v rest]

lemma dictLookup_insert_ne (k q : String) (v : Int) (hq : q ≠ k) :
    ∀ d : List (String × Int), dictLookup q (dictInsert k v d) = dictLookup q d
  | [] => by
      have hkq : ¬k = q := fun h => hq h.symm
      simp [dictInsert, dictLookup, hkq]
  | (k0, v0) :: rest => by
      have hkq : ¬k = q := fun h => hq h.symm
      by_cases h : k0 = k
      · subst h
        simp [dictInsert, dictLookup, hkq]
      · by_cases h2 : k0 = q
        · simp [dictInsert, dictLookup, h, h2, hq]
        · simp [dictInsert, dictLookup, h, h2, dictLookup_insert_ne k q v hq rest]

lemma add_folder_spec (fs : FS) (p : String) (lim : Int) (m : FolderMonitor) :
    add_folder_to_monitor fs p lim m =
      match lookupFS fs p with
      | some (FSNode.dir _) =>
          (true, { m with monitoring_config :=
                    dictInsert p (lim * 1024 * 1024) m.monitoring_config })
      | _ => (false, m) := by
  unfold add_folder_to_monitor
  cases h : lookupFS fs p with
  | none => simp [h]
  | some n => cases n <;> simp [h, isDirNode]

lemma checkLoop_eq_filterMap (fs : FS) (cfg : List (String × Int)) :
    checkLoop fs cfg = cfg.filterMap (fun e =>
      match get_folder_size fs e.1 with
      | Except.error _ => none
      | Except.ok current_size =>
          if e.2 < (current_size : Int) then
            some (mkViolation e.1 current_size e.2)
          else none) := by
  induction cfg with
  | nil => simp [checkLoop]
  | cons e rest ih =>
      cases h : get_folder_size fs e.1 with
      | error err => simp [checkLoop, List.filterMap_cons, h, ih]
      | ok current_size =>
          by_cases hlt : e.2 < (current_size : Int) <;>
            simp [checkLoop, List.filterMap_cons, h, hlt, ih]

lemma statusLoop_eq_map (fs : FS) (cfg : List (String × Int)) :
    statusLoop fs cfg = cfg.map (fun e => statusInfo fs e.1 e.2) := by
  induction cfg with
  | nil => simp [statusLoop]
  | cons e rest ih =>
      cases h : get_folder_size fs e.1 with
      | error err => simp [statusLoop, statusInfo, h, ih]
      | ok current_size => simp [statusLoop, statusInfo, h, ih]

lemma foldl_trigger_alert (now : ℚ) (timeStr : String) (vs : List Violation)
    (m : FolderMonitor) :
    vs.foldl (fun st v => trigger_alert now timeStr v st) m =
      { m with alerts_triggered := m.alerts_triggered ++ vs.map (mkAlert now timeStr) } := by
  induction vs generalizing m with
  | nil => simp
  | cons v rest ih =>
      simp only [List.foldl_cons, List.map_cons]
      rw [ih]
      simp [trigger_alert]

lemma monitor_once_eq (fs : FS) (now : ℚ) (timeStr : String) (m : FolderMonitor) :
    monitor_once fs now timeStr m =
      (!(check_folder_limits fs m).isEmpty,
       { m with alerts_triggered :=
          m.alerts_triggered ++ (check_folder_limits fs m).map (mkAlert now timeStr) }) := by
  unfold monitor_once
  by_cases hcfg : m.monitoring_config.isEmpty
  · have hnil : m.monitoring_config = [] := List.isEmpty_iff.mp hcfg
    have hv : check_folder_limits fs m = [] := by
      simp [check_folder_limits, hnil, checkLoop]
    simp [hcfg, hv]
  · simp only [if_neg hcfg]
    by_cases hv : (check_folder_limits fs m).isEmpty
    · have hnil : check_folder_limits fs m = [] := List.isEmpty_iff.mp hv
      simp [hnil]
    · simp only [hv, if_neg (by simpa using hv)]
      rw [foldl_trigger_alert]
      simp

lemma displayedValue_le (b : Nat) (h : (formatParts (b : ℚ) sizeUnits).1 < 1024) :
    displayedValue b ≤ 1024 := by
  have h0 : (0 : ℚ) ≤ (formatParts (b : ℚ) sizeUnits).1 :=
    formatParts_nonneg sizeUnits (b : ℚ) (Nat.cast_nonneg b)
  unfold displayedValue
  have hmul : (formatParts (b : ℚ) sizeUnits).1 * 100 < 102400 := by linarith
  have hfl : ⌊(formatParts (b : ℚ) sizeUnits).1 * 100⌋ < 102400 :=
    Int.floor_lt.mpr (by exact_mod_cast hmul)
  have hr : roundHalfEven ((formatParts (b : ℚ) sizeUnits).1 * 100) ≤ 102400 :=
    le_trans (roundHalfEven_le _) (by omega)
  rw [div_le_iff₀ (by norm_num : (0 : ℚ) < 100)]
  have hc : ((roundHalfEven ((formatParts (b : ℚ) sizeUnits).1 * 100) : ℤ) : ℚ)
      ≤ ((102400 : ℤ) : ℚ) := by exact_mod_cast hr
  push_cast at hc
  linarith

/-! ### Claims -/

/-- Claim C1, counterexample: `add_folder_to_monitor` performs no validation
of the limit value, so a non-positive limit on an existing directory is not
rejected — at `fs = [("d", dir [])]`, `limit_mb = 0`, the call returns
success and inserts the entry, refuting the claim as stated. -/
theorem register_rejects_nonpositive_counterexample : ¬registerRejectsNonpositiveClaim :=
  fun h =>
    absurd (h [("d", FSNode.dir [])] "d" 0 ⟨[], []⟩ (by decide)).1 (by decide)

/-- Claim C1, amended: `add_folder_to_monitor` ignores the sign of the
limit — with a non-positive `limit_mb` and a path that exists and is a
directory, it still returns success and stores `limit_mb × 1024 × 1024`
(limit validation happens only in the presentation layer, `main.py`). -/
theorem register_ignores_limit_sign (fs : FS) (p : String) (lim : Int)
    (m : FolderMonitor) (cs : List (String × FSNode)) (_hlim : lim ≤ 0)
    (hlook : lookupFS fs p = some (FSNode.dir cs)) :
    add_folder_to_monitor fs p lim m =
      (true, { m with monitoring_config :=
                dictInsert p (lim * 1024 * 1024) m.monitoring_config }) := by
  rw [add_folder_spec, hlook]

/-- Witness for the amended C1 at a concrete non-positive limit. -/
theorem register_ignores_limit_sign_witness :
    add_folder_to_monitor [("d", FSNode.dir [])] "d" (-3) ⟨[("e", 5)], []⟩ =
      (true, { monitoring_config := [("e", 5), ("d", -3145728)], alerts_triggered := [] }) := by
  have h := register_ignores_limit_sign [("d", FSNode.dir [])] "d" (-3)
    ⟨[("e", 5)], []⟩ [] (by decide) rfl
  rw [h]
  decide

/-- Claim C2, counterexample: at `b = 1048575` the loop keeps unit `"KB"`
(the running value `1048575/1024` is below 1024) but the two-decimal
rounding prints `"1024.00 KB"`, so the displayed magnitude is not strictly
below 1024 although the unit is not `"PB"`. -/
theorem format_magnitude_counterexample : ¬formatMagnitudeClaim := by
  intro h
  have hu : displayedUnit 1048575 = "KB" := by
    norm_num [displayedUnit, formatParts, sizeUnits]
  have hp : (formatParts ((1048575 : Nat) : ℚ) sizeUnits).1 = 1048575 / 1024 := by
    norm_num [formatParts, sizeUnits]
  have hv : displayedValue 1048575 = 1024 := by
    unfold displayedValue
    rw [hp, roundHalfEven_up ((1048575 : ℚ) / 1024 * 100) 102399 (by norm_num) (by norm_num)]
    norm_num
  have h2 := (h 1048575).2.2 (by rw [hu]; decide)
  rw [hv] at h2
  exact lt_irrefl _ h2

/-- Claim C2, amended: for every non-negative byte count the output is a
two-decimal number, a space and a unit from `{B, KB, MB, GB, TB, PB}`, and
when the unit is not `"PB"` the pre-rounding magnitude is strictly below
1024 — hence the printed magnitude is at most 1024 (it can round up to
exactly `1024.00`). -/
theorem format_shape_and_magnitude (b : Nat) :
    format_size (b : ℚ) =
      renderCents (roundHalfEven ((formatParts (b : ℚ) sizeUnits).1 * 100)).toNat
        ++ " " ++ displayedUnit b
    ∧ displayedUnit b ∈ allUnits
    ∧ (displayedUnit b ≠ "PB" →
        (formatParts (b : ℚ) sizeUnits).1 < 1024 ∧ displayedValue b ≤ 1024) := by
  refine ⟨?_, ?_, ?_⟩
  · unfold format_size displayedUnit
    rw [formatLoop_eq_parts,
      fmt2_nonneg _ (formatParts_nonneg sizeUnits (b : ℚ) (Nat.cast_nonneg b))]
  · exact formatParts_unit_mem sizeUnits (b : ℚ)
  · intro hne
    have hlt := formatParts_lt_of_ne sizeUnits (b : ℚ) hne
    exact ⟨hlt, displayedValue_le b hlt⟩

/-- Witness for the amended C2 at `b = 512` (unit `"B"`, not `"PB"`). -/
theorem format_shape_and_magnitude_witness :
    (formatParts (512 : ℚ) sizeUnits).1 < 1024 ∧ displayedValue 512 ≤ 1024 :=
  (format_shape_and_magnitude 512).2.2 (by decide)

/-- Claim C3: on an existing directory, `add_folder_to_monitor` stores
`limit_mb × 1024 × 1024` (inserting or overwriting exactly that key, other
keys untouched) and returns success; on a missing path or a non-directory it
returns failure and leaves the state untouched. -/
theorem register_spec (fs : FS) (p : String) (lim : Int) (m : FolderMonitor) :
    (add_folder_to_monitor fs p lim m =
      match lookupFS fs p with
      | some (FSNode.dir _) =>
          (true, { m with monitoring_config :=
                    dictInsert p (lim * 1024 * 1024) m.monitoring_config })
      | _ => (false, m))
    ∧ dictLookup p (dictInsert p (lim * 1024 * 1024) m.monitoring_config) =
        some (lim * 1024 * 1024)
    ∧ ∀ q, q ≠ p →
        dictLookup q (dictInsert p (lim * 1024 * 1024) m.monitoring_config) =
          dictLookup q m.monitoring_config :=
  ⟨add_folder_spec fs p lim m,
   dictLookup_insert_self p (lim * 1024 * 1024) m.monitoring_config,
   fun q hq => dictLookup_insert_ne p q (lim * 1024 * 1024) hq m.monitoring_config⟩

/-- Witness for C3: registering `"d"` with `limit_mb = 10` stores
`10485760` bytes after the pre-existing entry, and an absent key still looks
up the same. -/
theorem register_spec_witness :
    add_folder_to_monitor [("d", FSNode.dir [])] "d" 10 ⟨[("e", 5)], []⟩ =
      (true, { monitoring_config := [("e", 5), ("d", 10485760)], alerts_triggered := [] })
    ∧ dictLookup "e" (dictInsert "d" (10 * 1024 * 1024) [("e", 5)]) =
        dictLookup "e" [("e", 5)] := by
  have h := register_spec [("d", FSNode.dir [])] "d" 10 ⟨[("e", 5)], []⟩
  constructor
  · rw [h.1]
    decide
  · exact h.2.2 "e" (by decide)

/-- Claim C4: `get_folder_size` fails with the not-found error on a missing
path and with the not-a-directory error on a non-directory; on a directory
whose files are all accessible it returns the sum of the sizes of every
regular file anywhere in the subtree (an empty directory yields 0). -/
theorem measure_spec (fs : FS) (p : String) :
    (lookupFS fs p = none →
      get_folder_size fs p =
        Except.error (OSErr.notFound ("Folder \x27" ++ p ++ "\x27 does not exist.")))
    ∧ (∀ sz st, lookupFS fs p = some (FSNode.file sz st) →
      get_folder_size fs p =
        Except.error (OSErr.notADirectory ("\x27" ++ p ++ "\x27 is not a directory.")))
    ∧ (∀ cs, lookupFS fs p = some (FSNode.dir cs) →
        (∀ f ∈ filesIn cs, f.2 = FileStatus.readable) →
        get_folder_size fs p = Except.ok (((filesIn cs).map (fun f => f.1)).sum)) := by
  refine ⟨fun h => ?_, fun sz st h => ?_, fun cs h hall => ?_⟩
  · unfold get_folder_size
    rw [h]
  · unfold get_folder_size
    rw [h]
  · unfold get_folder_size
    rw [h]
    refine congrArg Except.ok ?_
    rw [walkChildren_eq]
    have hfilter : (filesIn cs).filter (fun f => f.2 == FileStatus.readable) = filesIn cs := by
      apply List.filter_eq_self.mpr
      intro a ha
      rw [hall a ha]
      rfl
    rw [hfilter]

/-- Witness for C4: a root file of 1024 bytes plus a nested file of 2048
bytes measure to 3072; a missing path and a file path produce the two error
outcomes. -/
theorem measure_spec_witness :
    get_folder_size
      [("root", FSNode.dir [("a.bin", FSNode.file 1024 FileStatus.readable),
        ("sub", FSNode.dir [("b.bin", FSNode.file 2048 FileStatus.readable)])]),
       ("somefile", FSNode.file 7 FileStatus.readable)] "root" = Except.ok 3072
    ∧ get_folder_size [] "ghost"
        = Except.error (OSErr.notFound ("Folder \x27ghost\x27 does not exist."))
    ∧ get_folder_size [("f", FSNode.file 7 FileStatus.readable)] "f"
        = Except.error (OSErr.notADirectory ("\x27f\x27 is not a directory.")) := by
  refine ⟨?_, ?_, ?_⟩
  · have h := (measure_spec
      [("root", FSNode.dir [("a.bin", FSNode.file 1024 FileStatus.readable),
        ("sub", FSNode.dir [("b.bin", FSNode.file 2048 FileStatus.readable)])]),
       ("somefile", FSNode.file 7 FileStatus.readable)] "root").2.2
      [("a.bin", FSNode.file 1024 FileStatus.readable),
       ("sub", FSNode.dir [("b.bin", FSNode.file 2048 FileStatus.readable)])]
      rfl (by simp [filesIn])
    rw [h]
    simp [filesIn]
  · exact (measure_spec [] "ghost").1 rfl
  · exact (measure_spec [("f", FSNode.file 7 FileStatus.readable)] "f").2.1
      7 FileStatus.readable rfl

/-- Claim C5: when the root exists and is a directory, per-file access
failures never surface — the result is always a success whose value is the
sum of the sizes of exactly the readable files, every vanished or unreadable
file being skipped. -/
theorem measure_skips_inaccessible (fs : FS) (p : String)
    (cs : List (String × FSNode)) (h : lookupFS fs p = some (FSNode.dir cs)) :
    get_folder_size fs p =
      Except.ok ((((filesIn cs).filter (fun f => f.2 == FileStatus.readable)).map
        (fun f => f.1)).sum) := by
  unfold get_folder_size
  rw [h]
  exact congrArg Except.ok (walkChildren_eq cs)

/-- Witness for C5: a vanished file and an unreadable file are skipped while
the readable files (including a nested one) are summed, with no error. -/
theorem measure_skips_inaccessible_witness :
    get_folder_size
      [("d", FSNode.dir [("keep", FSNode.file 1024 FileStatus.readable),
        ("gone", FSNode.file 50 FileStatus.vanished),
        ("locked", FSNode.file 25 FileStatus.unreadable),
        ("sub", FSNode.dir [("deep", FSNode.file 100 FileStatus.readable)])])] "d"
      = Except.ok 1124 := by
  have h := measure_skips_inaccessible
    [("d", FSNode.dir [("keep", FSNode.file 1024 FileStatus.readable),
      ("gone", FSNode.file 50 FileStatus.vanished),
      ("locked", FSNode.file 25 FileStatus.unreadable),
      ("sub", FSNode.dir [("deep", FSNode.file 100 FileStatus.readable)])])] "d"
    [("keep", FSNode.file 1024 FileStatus.readable),
     ("gone", FSNode.file 50 FileStatus.vanished),
     ("locked", FSNode.file 25 FileStatus.unreadable),
     ("sub", FSNode.dir [("deep", FSNode.file 100 FileStatus.readable)])] rfl
  rw [h]
  simp [filesIn, List.filter_cons,
    show (FileStatus.readable == FileStatus.readable) = true from rfl,
    show (FileStatus.vanished == FileStatus.readable) = false from rfl,
    show (FileStatus.unreadable == FileStatus.readable) = false from rfl]

/-- Claim C6: `check_folder_limits` visits the watch-list in mapping order,
skips entries whose measurement fails, emits exactly one violation per entry
whose size strictly exceeds its limit — with excess `current − limit` and
formatted current/limit/excess — and none otherwise; it returns only the
violation list and never touches the alert history. -/
theorem evaluate_spec (fs : FS) (m : FolderMonitor) :
    check_folder_limits fs m = m.monitoring_config.filterMap (fun e =>
      match get_folder_size fs e.1 with
      | Except.error _ => none
      | Except.ok current_size =>
          if e.2 < (current_size : Int) then
            some (mkViolation e.1 current_size e.2)
          else none)
    ∧ ∀ p c l, (mkViolation p c l).excess_size = (c : Int) - l
        ∧ (mkViolation p c l).current_size = c
        ∧ (mkViolation p c l).size_limit = l
        ∧ (mkViolation p c l).current_size_formatted = format_size (c : ℚ)
        ∧ (mkViolation p c l).size_limit_formatted = format_size (l : ℚ)
        ∧ (mkViolation p c l).excess_size_formatted = format_size (((c : Int) - l : Int) : ℚ) :=
  ⟨checkLoop_eq_filterMap fs m.monitoring_config,
   fun _ _ _ => ⟨rfl, rfl, rfl, rfl, rfl, rfl⟩⟩

/-- Claim C7: `monitor_once` returns `true` exactly when the evaluation pass
found a violation (in particular `false` on an empty watch-list), appends one
alert per violation in the order returned, and otherwise leaves the state
unchanged. -/
theorem check_once_spec (fs : FS) (now : ℚ) (timeStr : String) (m : FolderMonitor) :
    (monitor_once fs now timeStr m).1 = !(check_folder_limits fs m).isEmpty
    ∧ (monitor_once fs now timeStr m).2 =
        { m with alerts_triggered :=
            m.alerts_triggered ++ (check_folder_limits fs m).map (mkAlert now timeStr) } := by
  rw [monitor_once_eq]
  exact ⟨rfl, rfl⟩

/-- Claim C8, counterexample: the code guards the usage-percentage division
at `size_limit > 0`, not only at `size_limit == 0` — for a stored limit of
`-1` and a measured size of 100 the code reports `0` where the claimed
formula gives `-10000`. -/
theorem status_usage_counterexample : ¬statusUsageGuardClaim := by
  intro h
  have he := h [("d", FSNode.dir [("f", FSNode.file 100 FileStatus.readable)])]
    ⟨[("d", -1)], []⟩
  norm_num [get_monitoring_status, statusLoop, statusInfoClaimed, claimUsage,
    get_folder_size, lookupFS, walkChildren, fileContribution] at he

/-- Claim C8, amended: `get_monitoring_status` is a pure read (it raises
nothing and returns a snapshot without touching the monitor state); every
entry is reported, an unmeasurable entry as an error descriptor, and
usage_percentage is `current/limit × 100` guarded to `0` whenever
`limit_bytes ≤ 0` (not only at `limit_bytes == 0`). -/
theorem status_spec (fs : FS) (m : FolderMonitor) :
    get_monitoring_status fs m =
      { total_folders_monitored := m.monitoring_config.length
        folders := m.monitoring_config.map (fun e => statusInfo fs e.1 e.2)
        total_alerts_triggered := m.alerts_triggered.length } := by
  unfold get_monitoring_status
  rw [statusLoop_eq_map]

/-- Claim C9: the four documented renderings of `format_size`, computed by
the repeated division by `1024.0` and two-decimal rounding embedded in
`formatLoop`/`fmt2` (a pure function of its argument). -/
theorem format_concrete_values :
    format_size (512 : ℚ) = "512.00 B"
    ∧ format_size (1536 : ℚ) = "1.50 KB"
    ∧ format_size (1572864 : ℚ) = "1.50 MB"
    ∧ format_size (1610612736 : ℚ) = "1.50 GB" := by
  refine ⟨?_, ?_, ?_, ?_⟩
  · rw [format_size, formatLoop_eq_parts,
      show formatParts (512 : ℚ) sizeUnits = (512, "B") from rfl,
      fmt2_nonneg _ (by norm_num),
      roundHalfEven_low ((512 : ℚ) * 100) 51200 (by norm_num) (by norm_num)]
    rfl
  · rw [format_size, formatLoop_eq_parts,
      show formatParts (1536 : ℚ) sizeUnits = (3 / 2, "KB") from by
        norm_num [formatParts, sizeUnits],
      fmt2_nonneg _ (by norm_num),
      roundHalfEven_low ((3 / 2 : ℚ) * 100) 150 (by norm_num) (by norm_num)]
    rfl
  · rw [format_size, formatLoop_eq_parts,
      show formatParts (1572864 : ℚ) sizeUnits = (3 / 2, "MB") from by
        norm_num [formatParts, sizeUnits],
      fmt2_nonneg _ (by norm_num),
      roundHalfEven_low ((3 / 2 : ℚ) * 100) 150 (by norm_num) (by norm_num)]
    rfl
  · rw [format_size, formatLoop_eq_parts,
      show formatParts (1610612736 : ℚ) sizeUnits = (3 / 2, "GB") from by
        norm_num [formatParts, sizeUnits],
      fmt2_nonneg _ (by norm_num),
      roundHalfEven_low ((3 / 2 : ℚ) * 100) 150 (by norm_num) (by norm_num)]
    rfl

/-- Claim C10: the alert history is append-only across every state-changing
operation — each of `add_folder_to_monitor`, `remove_folder_from_monitor`,
`trigger_alert` and `monitor_once` extends `alerts_triggered` by a (possibly
empty) suffix; `get_folder_size`, `format_size`, `check_folder_limits` and
`get_monitoring_status` are pure and return no state at all. -/
theorem alert_history_append_only (fs : FS) (p : String) (lim : Int)
    (m : FolderMonitor) (now : ℚ) (timeStr : String) (v : Violation) :
    (∃ t, (add_folder_to_monitor fs p lim m).2.alerts_triggered = m.alerts_triggered ++ t)
    ∧ (∃ t, (remove_folder_from_monitor p m).2.alerts_triggered = m.alerts_triggered ++ t)
    ∧ (∃ t, (trigger_alert now timeStr v m).alerts_triggered = m.alerts_triggered ++ t)
    ∧ (∃ t, (monitor_once fs now timeStr m).2.alerts_triggered = m.alerts_triggered ++ t) := by
  refine ⟨⟨[], ?_⟩, ⟨[], ?_⟩, ⟨[mkAlert now timeStr v], rfl⟩,
    ⟨(check_folder_limits fs m).map (mkAlert now timeStr), ?_⟩⟩
  · rw [add_folder_spec]
    cases h : lookupFS fs p with
    | none => simp
    | some n => cases n <;> simp
  · unfold remove_folder_from_monitor
    split <;> simp
  · rw [monitor_once_eq]

end FolderMon
